import Mathlib

/-!
Verification of the authentication / CSRF / cache-invalidation core of the
fastify-api-server-template repository, as a shallow embedding in Lean 4.

Sources embedded:
- src/utils/errors.ts            — error taxonomy (AppError subclasses)
- src/plugins/jwt.ts             — access/refresh token sign & verify
  (the current revision: access tokens via the fastify jwt instance with
   JWT_ACCESS_SECRET, refresh tokens via jsonwebtoken with JWT_REFRESH_SECRET)
- src/utils/password.ts          — bcrypt hash / compare (idealized)
- src/repositories/userRepository.ts — user lookups and create
- src/services/authService.ts    — register / login / issueTokens / refreshTokens
- src/middlewares/csrf.middleware.ts — double-submit CSRF guard
- src/plugins/redis.ts           — cache service (get/set/del/delPattern/getOrSet)
- src/repositories/todoRepository.ts — cache-aside todo CRUD

Modelling conventions: promises are elided (all embedded code is sequential
and deterministic); thrown AppErrors become `Except AppErr`; the database is
explicit state (a list of rows); the Redis store is an explicit
`String → Option CacheVal` map, where `CacheVal.null` is the parsed JSON
`null` (JSON.stringify/JSON.parse round-trip is the identity on the values
the repository caches, so serialization is elided but the distinction
between an absent key and a key holding the string "null" is kept, exactly
as in redis.ts); HMAC signing is idealized as a token that records the
signing secret, with verification succeeding precisely when the verifier's
secret equals the signer's.
-/

namespace FastifyTemplate

/-! ## Error taxonomy (src/utils/errors.ts) -/

inductive ErrKind where
  | validation
  | unauthorized
  | notFound
  | forbidden
  | conflict
  | internal
  deriving DecidableEq, Repr

structure AppErr where
  kind : ErrKind
  message : String
  statusCode : Nat
  deriving DecidableEq, Repr

def ValidationError (msg : String := "Validation failed") : AppErr :=
  ⟨ErrKind.validation, msg, 400⟩

def UnauthorizedError (msg : String := "Unauthorized") : AppErr :=
  ⟨ErrKind.unauthorized, msg, 401⟩

def NotFoundError (msg : String := "Resource not found") : AppErr :=
  ⟨ErrKind.notFound, msg, 404⟩

/-! ## Token issuer/verifier (src/plugins/jwt.ts)

`signAccessToken` signs with `env.JWT_ACCESS_SECRET` (via the fastify jwt
instance); `signRefreshToken` and `verifyRefreshToken` use the jsonwebtoken
library directly with `env.JWT_REFRESH_SECRET`; `authenticate` verifies the
presented token with the fastify jwt instance (access secret) and throws
`UnauthorizedError()` on failure.  HMAC-SHA256 is idealized: a signed token
carries the secret it was signed with, and verification under secret `s`
succeeds iff the token was signed with `s`.  TTL expiry is not modelled
(no claim under proof depends on it). -/

structure Claims where
  sub : String
  email : Option String
  deriving DecidableEq, Repr

structure SignedToken where
  secret : String
  payload : Claims
  deriving DecidableEq, Repr

structure JwtEnv where
  JWT_ACCESS_SECRET : String
  JWT_REFRESH_SECRET : String
  deriving DecidableEq, Repr

def signToken (secret : String) (payload : Claims) : SignedToken :=
  ⟨secret, payload⟩

def verifyToken (secret : String) (tok : SignedToken) : Option Claims :=
  if tok.secret = secret then some tok.payload else none

def signAccessToken (e : JwtEnv) (c : Claims) : SignedToken :=
  signToken e.JWT_ACCESS_SECRET c

def signRefreshToken (e : JwtEnv) (c : Claims) : SignedToken :=
  signToken e.JWT_REFRESH_SECRET c

def verifyAccessToken (e : JwtEnv) (tok : SignedToken) : Except AppErr Claims :=
  match verifyToken e.JWT_ACCESS_SECRET tok with
  | some c => Except.ok c
  | none => Except.error (UnauthorizedError)

def verifyRefreshToken (e : JwtEnv) (tok : SignedToken) : Except AppErr Claims :=
  match verifyToken e.JWT_REFRESH_SECRET tok with
  | some c => Except.ok c
  | none => Except.error (UnauthorizedError "Invalid refresh token")

/-! ## Password hasher (src/utils/password.ts)

bcrypt is an external library; it is idealized as a deterministic injective
digest (salt fixed), with `comparePassword p h` true iff `p` re-hashes to
`h` — exactly the verification contract the service relies on. -/

def hashPassword (p : String) : String :=
  "$2a$10$" ++ p

def comparePassword (p h : String) : Bool :=
  hashPassword p == h

/-! ## User store (src/repositories/userRepository.ts)

Each lookup is a `select … where eq(col, v) … limit 1`, i.e. the first row
matching the column; `create` appends a fresh row (its uuidv7 id is passed
in as `newId`). -/

structure User where
  id : String
  user_name : String
  email : String
  password : String
  deriving DecidableEq, Repr

def getUserByEmail (db : List User) (email : String) : Option User :=
  db.find? (fun u => u.email == email)

def getUserByUserName (db : List User) (n : String) : Option User :=
  db.find? (fun u => u.user_name == n)

def getUserById (db : List User) (i : String) : Option User :=
  db.find? (fun u => u.id == i)

/-! ## Auth service (src/services/authService.ts)

The embedding additionally records a trace of the externally visible steps
(repository lookups, password hashing, user creation) in execution order,
so ordering claims ("hashing happens only after both uniqueness checks
pass") are statable. -/

inductive AuthEvent where
  | lookupEmail (e : String)
  | lookupUserName (n : String)
  | hashed (p : String)
  | createdUser (u : User)
  deriving DecidableEq, Repr

structure TokenPairResult where
  accessToken : SignedToken
  refreshToken : SignedToken
  user : User
  deriving DecidableEq, Repr

instance : DecidableEq (Except AppErr TokenPairResult) := fun a b =>
  match a, b with
  | Except.ok x, Except.ok y =>
      if h : x = y then isTrue (by simp [h]) else isFalse (by simp [h])
  | Except.error x, Except.error y =>
      if h : x = y then isTrue (by simp [h]) else isFalse (by simp [h])
  | Except.ok _, Except.error _ => isFalse (by simp)
  | Except.error _, Except.ok _ => isFalse (by simp)

structure RegisterOut where
  trace : List AuthEvent
  result : Except AppErr TokenPairResult
  db : List User
  deriving DecidableEq, Repr

def mintPair (e : JwtEnv) (u : User) : SignedToken × SignedToken :=
  (signAccessToken e ⟨u.id, some u.email⟩, signRefreshToken e ⟨u.id, some u.email⟩)

def register (e : JwtEnv) (db : List User) (newId : String)
    (user_name email password : String) : RegisterOut :=
  match getUserByEmail db email with
  | some _ =>
      ⟨[AuthEvent.lookupEmail email],
       Except.error (ValidationError "Email already exists"), db⟩
  | none =>
    match getUserByUserName db user_name with
    | some _ =>
        ⟨[AuthEvent.lookupEmail email, AuthEvent.lookupUserName user_name],
         Except.error (ValidationError "Username already exists"), db⟩
    | none =>
      let hashed := hashPassword password
      let u : User := ⟨newId, user_name, email, hashed⟩
      let pair := mintPair e u
      ⟨[AuthEvent.lookupEmail email, AuthEvent.lookupUserName user_name,
        AuthEvent.hashed password, AuthEvent.createdUser u],
       Except.ok ⟨pair.1, pair.2, u⟩, db ++ [u]⟩

/-- The lookup `login` performs: by email first, falling through to
username (JS `||` on the two awaited lookups). -/
def findByIdentifier (db : List User) (identifier : String) : Option User :=
  match getUserByEmail db identifier with
  | some u => some u
  | none => getUserByUserName db identifier

def login (e : JwtEnv) (db : List User) (identifier password : String) :
    Except AppErr TokenPairResult :=
  match findByIdentifier db identifier with
  | none => Except.error (UnauthorizedError "Invalid credentials")
  | some u =>
    if comparePassword password u.password then
      let pair := mintPair e u
      Except.ok ⟨pair.1, pair.2, u⟩
    else
      Except.error (UnauthorizedError "Invalid credentials")

def issueTokens (e : JwtEnv) (db : List User) (userId : String) :
    Except AppErr TokenPairResult :=
  match getUserById db userId with
  | none => Except.error (NotFoundError "User not found")
  | some u =>
    let pair := mintPair e u
    Except.ok ⟨pair.1, pair.2, u⟩

/-- `refreshTokens` wraps its body in try/catch: a `NotFoundError` is
rethrown as-is, every other failure (in particular a failed
`verifyRefreshToken`) surfaces as `UnauthorizedError("Invalid refresh
token")`. -/
def refreshTokens (e : JwtEnv) (db : List User) (tok : SignedToken) :
    Except AppErr TokenPairResult :=
  match verifyRefreshToken e tok with
  | Except.error _ => Except.error (UnauthorizedError "Invalid refresh token")
  | Except.ok payload =>
    match getUserById db payload.sub with
    | none => Except.error (NotFoundError "User not found")
    | some u =>
      let pair := mintPair e u
      Except.ok ⟨pair.1, pair.2, u⟩

/-! ## Controller response shape (src/controllers/authController.ts)

Every token-issuing handler maps the service result to
`TokenResponseDTO = {accessToken, refreshToken}` before replying. -/

structure TokenResponseDTO where
  accessToken : SignedToken
  refreshToken : SignedToken
  deriving DecidableEq, Repr

def toTokenResponse (r : TokenPairResult) : TokenResponseDTO :=
  ⟨r.accessToken, r.refreshToken⟩

def registerResponse (out : RegisterOut) : Except AppErr TokenResponseDTO :=
  out.result.map toTokenResponse

/-! ## CSRF guard (src/middlewares/csrf.middleware.ts) -/

/-- `constantTimeEquals`: false immediately on length mismatch, otherwise
OR-accumulate the XOR of the char codes at every position and compare the
accumulator with 0.  Char codes are `charCodeAt` values, embedded as
`Char.toNat`. -/
def charCodes (s : String) : List Nat :=
  s.data.map Char.toNat

def constantTimeEquals (a b : String) : Bool :=
  let ca := charCodes a
  let cb := charCodes b
  if ca.length ≠ cb.length then
    false
  else
    let result := (List.zip ca cb).foldl (fun acc p => acc ||| (p.1 ^^^ p.2)) 0
    result == 0

/-- JS truthiness of an optional string: `undefined` and `""` are falsy. -/
def truthy (o : Option String) : Option String :=
  match o with
  | none => none
  | some s => if s = "" then none else some s

/-- `p.startsWith q`, embedded over the character lists. -/
def strStartsWith (s p : String) : Bool :=
  List.isPrefixOf p.data s.data

structure CsrfRequest where
  method : String
  url : String
  cookieCsrfToken : Option String
  headerXCsrfToken : Option String
  headerCsrfToken : Option String
  headerXXsrfToken : Option String
  deriving DecidableEq, Repr

def safeMethods : List String := ["GET", "HEAD", "OPTIONS"]

/-- The header value read by the hook:
`headers[x-csrf-token] || headers[csrf-token] || headers[x-xsrf-token]`
(JS `||` skips falsy values, i.e. missing or empty headers). -/
def csrfHeaderToken (req : CsrfRequest) : Option String :=
  match truthy req.headerXCsrfToken with
  | some s => some s
  | none =>
    match truthy req.headerCsrfToken with
    | some s => some s
    | none => truthy req.headerXXsrfToken

inductive CsrfOutcome where
  | allow
  | deny (e : AppErr)
  deriving DecidableEq, Repr

/-- The body of the `onRequest` hook registered by `setupCSRFProtection`. -/
def csrfHook (req : CsrfRequest) : CsrfOutcome :=
  if req.method ∈ safeMethods then
    CsrfOutcome.allow
  else if strStartsWith req.url "/health" || strStartsWith req.url "/docs" ||
      strStartsWith req.url "/internal" then
    CsrfOutcome.allow
  else
    match truthy req.cookieCsrfToken, csrfHeaderToken req with
    | none, _ => CsrfOutcome.deny (UnauthorizedError "CSRF token required")
    | some _, none => CsrfOutcome.deny (UnauthorizedError "CSRF token required")
    | some c, some h =>
      if constantTimeEquals c h then
        CsrfOutcome.allow
      else
        CsrfOutcome.deny (UnauthorizedError "Invalid CSRF token")

/-- `setupCSRFProtection` registers the hook unless
`!env.ENABLE_CSRF || NODE_ENV === 'test'`, in which case it returns without
registering anything. -/
def setupCSRFProtection (enableCsrf : Bool) (nodeEnv : String) :
    Option (CsrfRequest → CsrfOutcome) :=
  if !enableCsrf || nodeEnv == "test" then none else some csrfHook

/-- A request passing through the server: if no hook was registered, every
request is allowed. -/
def runCsrfGuard (enableCsrf : Bool) (nodeEnv : String) (req : CsrfRequest) :
    CsrfOutcome :=
  match setupCSRFProtection enableCsrf nodeEnv with
  | none => CsrfOutcome.allow
  | some hook => hook req

/-! ## Cache service (src/plugins/redis.ts, connected path)

Values are stored serialized with `JSON.stringify` and read back with
`JSON.parse`; the round-trip is the identity on the repository's cached
values, so the store holds parsed values directly.  The one behavior the
serialization keeps is that `set(key, null)` stores the string "null"
under the key — a present key whose parsed value is `null` — which `get`
then parses back to `null`, indistinguishable from an absent key to every
reader.  TTL expiry is not modelled. -/

structure TodoResponse where
  id : String
  title : String
  description : Option String
  completed : Bool
  created_at : Nat
  updated_at : Nat
  deriving DecidableEq, Repr

inductive CacheVal where
  | null
  | todo (t : TodoResponse)
  deriving DecidableEq, Repr

abbrev CacheStore := String → Option CacheVal

def emptyCache : CacheStore := fun _ => none

/-- `get`: redis GET returns `null` for an absent key (→ parsed `null`);
for a present key the stored serialization (a non-empty string) is parsed
back, so a stored `null` is also returned as `null`. -/
def cacheGet (st : CacheStore) (key : String) : CacheVal :=
  match st key with
  | none => CacheVal.null
  | some v => v

/-- `set`: `setex key ttl (JSON.stringify value)` — unconditional write. -/
def cacheSet (st : CacheStore) (key : String) (v : CacheVal) : CacheStore :=
  fun k => if k = key then some v else st k

def cacheDel (st : CacheStore) (key : String) : CacheStore :=
  fun k => if k = key then none else st k

/-- Redis glob matching (SCAN `MATCH pattern`), over character lists: `*`
matches any sequence, every other character matches itself. -/
def globMatchL : List Char → List Char → Bool
  | [], ks => ks.isEmpty
  | p :: ps, ks =>
    if p = '*' then
      globMatchL ps ks ||
        (match ks with
         | [] => false
         | _ :: ks2 => globMatchL (p :: ps) ks2)
    else
      match ks with
      | [] => false
      | k :: ks2 => p == k && globMatchL ps ks2
termination_by ps ks => (ps.length, ks.length)

def globMatch (pat key : String) : Bool :=
  globMatchL pat.data key.data

/-- `delPattern`: delete every key matching the glob pattern. -/
def cacheDelPattern (st : CacheStore) (pat : String) : CacheStore :=
  fun k => if globMatch pat k then none else st k

structure GetOrSetOut where
  value : CacheVal
  store : CacheStore
  fetcherCalled : Bool

/-- `getOrSet`: return the cached value if it parsed to non-`null`;
otherwise call the fetcher, `set` its result (whatever it is, `null`
included), and return it. -/
def cacheGetOrSet (st : CacheStore) (key : String) (fetch : Unit → CacheVal) :
    GetOrSetOut :=
  let cached := cacheGet st key
  if cached ≠ CacheVal.null then
    ⟨cached, st, false⟩
  else
    let v := fetch ()
    ⟨v, cacheSet st key v, true⟩

/-! ## Todo repository (src/repositories/todoRepository.ts) -/

structure TodoRow where
  id : String
  userId : String
  title : String
  description : Option String
  completed : Bool
  createdAt : Nat
  updatedAt : Nat
  deriving DecidableEq, Repr

abbrev TodoDb := List TodoRow

structure CreateTodo where
  title : String
  description : Option String
  completed : Option Bool
  deriving DecidableEq, Repr

/-- `UpdateTodo`: each field is absent (`undefined`) or supplied; a
supplied description may itself be `null`. -/
structure UpdateTodo where
  title : Option String
  description : Option (Option String)
  completed : Option Bool
  deriving DecidableEq, Repr

def toTodoResponse (r : TodoRow) : TodoResponse :=
  ⟨r.id, r.title, r.description, r.completed, r.createdAt, r.updatedAt⟩

/-- `select … where and(eq(todos.id, id), eq(todos.userId, userId)) limit 1`. -/
def dbFindTodo (db : TodoDb) (id userId : String) : Option TodoRow :=
  db.find? (fun r => r.id == id && r.userId == userId)

def todoItemKey (userId id : String) : String :=
  "todo:" ++ userId ++ ":" ++ id

def todoListPat (userId : String) : String :=
  "todo:" ++ userId ++ ":*"

structure RepoOut (α : Type) where
  result : α
  db : TodoDb
  cache : CacheStore

/-- `create`: insert the new row (uuidv7 id and the DB clock are passed in
as `newId` / `now`), then invalidate the user's todo pattern. -/
def todoCreate (db : TodoDb) (cache : CacheStore) (newId : String) (now : Nat)
    (data : CreateTodo) (userId : String) : RepoOut TodoResponse :=
  let row : TodoRow :=
    ⟨newId, userId, data.title, data.description, data.completed.getD false,
     now, now⟩
  let db2 := db ++ [row]
  let cache2 := cacheDelPattern cache (todoListPat userId)
  ⟨toTodoResponse row, db2, cache2⟩

/-- `getById`: cache-aside via `getOrSet` on the user-scoped key; the
fetcher queries scoped by both id and owner and returns `null` when no row
matches. -/
def todoGetById (db : TodoDb) (cache : CacheStore) (id userId : String) :
    RepoOut CacheVal :=
  let key := todoItemKey userId id
  let o := cacheGetOrSet cache key (fun _ =>
    match dbFindTodo db id userId with
    | none => CacheVal.null
    | some r => CacheVal.todo (toTodoResponse r))
  ⟨o.value, db, o.store⟩

def applyUpdate (r : TodoRow) (data : UpdateTodo) (now : Nat) : TodoRow :=
  { r with
    title := data.title.getD r.title
    description :=
      match data.description with
      | none => r.description
      | some d => d
    completed := data.completed.getD r.completed
    updatedAt := now }

/-- `update`: `update … set … where and(eq(id), eq(userId)) returning`; on
an affected row, `del` the item key then `delPattern` the list pattern; on
no affected row return `null` untouched. -/
def todoUpdate (db : TodoDb) (cache : CacheStore) (id : String)
    (data : UpdateTodo) (userId : String) (now : Nat) :
    RepoOut (Option TodoResponse) :=
  match dbFindTodo db id userId with
  | none => ⟨none, db, cache⟩
  | some r =>
    let db2 := db.map (fun x =>
      if x.id == id && x.userId == userId then applyUpdate x data now else x)
    let cache2 := cacheDel cache (todoItemKey userId id)
    let cache3 := cacheDelPattern cache2 (todoListPat userId)
    ⟨some (toTodoResponse (applyUpdate r data now)), db2, cache3⟩

/-- `delete`: `delete … where and(eq(id), eq(userId)) returning`; invalidate
only when a row was actually deleted; return whether one was. -/
def todoDelete (db : TodoDb) (cache : CacheStore) (id userId : String) :
    RepoOut Bool :=
  if (dbFindTodo db id userId).isSome then
    let db2 := db.filter (fun r => !(r.id == id && r.userId == userId))
    let cache2 := cacheDel cache (todoItemKey userId id)
    let cache3 := cacheDelPattern cache2 (todoListPat userId)
    ⟨true, db2, cache3⟩
  else
    ⟨false, db, cache⟩

/-! ## Helper lemmas -/

theorem nat_lor_eq_zero {m n : Nat} : m ||| n = 0 ↔ m = 0 ∧ n = 0 := by
  constructor
  · intro h
    constructor
    · apply Nat.eq_of_testBit_eq
      intro i
      have hb := congrArg (fun x => Nat.testBit x i) h
      simp only [Nat.testBit_or, Nat.zero_testBit, Bool.or_eq_false_iff] at hb
      simp [hb.1]
    · apply Nat.eq_of_testBit_eq
      intro i
      have hb := congrArg (fun x => Nat.testBit x i) h
      simp only [Nat.testBit_or, Nat.zero_testBit, Bool.or_eq_false_iff] at hb
      simp [hb.2]
  · rintro ⟨rfl, rfl⟩
    simp

theorem foldl_lor_xor_eq_zero (l : List (Nat × Nat)) (acc : Nat) :
    l.foldl (fun a p => a ||| (p.1 ^^^ p.2)) acc = 0 ↔
      acc = 0 ∧ ∀ p ∈ l, p.1 = p.2 := by
  induction l generalizing acc with
  | nil => simp
  | cons hd tl ih =>
    rw [List.foldl_cons, ih, nat_lor_eq_zero]
    constructor
    · rintro ⟨⟨h1, h2⟩, h3⟩
      refine ⟨h1, ?_⟩
      intro p hp
      rcases List.mem_cons.mp hp with hp | hp
      · subst hp; exact Nat.xor_eq_zero.mp h2
      · exact h3 p hp
    · rintro ⟨h1, h2⟩
      exact ⟨⟨h1, Nat.xor_eq_zero.mpr (h2 hd (List.mem_cons_self hd tl))⟩,
        fun p hp => h2 p (List.mem_cons_of_mem hd hp)⟩

theorem charToNat_injective : Function.Injective Char.toNat := by
  intro c d h
  exact Char.eq_of_val_eq (UInt32.toNat.inj h)

theorem zip_forall_eq_iff :
    ∀ (xs ys : List Nat), xs.length = ys.length →
      ((∀ p ∈ xs.zip ys, p.1 = p.2) ↔ xs = ys) := by
  intro xs
  induction xs with
  | nil =>
    intro ys hlen
    cases ys with
    | nil => simp
    | cons y ys => simp at hlen
  | cons x xs ih =>
    intro ys hlen
    cases ys with
    | nil => simp at hlen
    | cons y ys =>
      simp only [List.length_cons, Nat.add_right_cancel_iff] at hlen
      simp only [List.zip_cons_cons, List.mem_cons, List.cons.injEq]
      rw [← ih ys hlen]
      constructor
      · intro h
        exact ⟨h (x, y) (Or.inl rfl), fun p hp => h p (Or.inr hp)⟩
      · rintro ⟨h1, h2⟩ p hp
        rcases hp with hp | hp
        · subst hp; exact h1
        · exact h2 p hp

theorem constantTimeEquals_eq_true_iff (a b : String) :
    constantTimeEquals a b = true ↔ a = b := by
  unfold constantTimeEquals
  by_cases hlen : (charCodes a).length = (charCodes b).length
  · simp only [hlen, ne_eq, not_true_eq_false, if_false, beq_iff_eq,
      foldl_lor_xor_eq_zero, true_and]
    rw [zip_forall_eq_iff _ _ hlen]
    unfold charCodes
    constructor
    · intro h
      have hdata := (List.map_injective_iff.mpr charToNat_injective) h
      cases a; cases b
      exact congrArg String.mk hdata
    · intro h
      rw [h]
  · rw [if_pos hlen]
    simp only [Bool.false_eq_true, false_iff]
    intro h
    apply hlen
    rw [h]

theorem globMatchL_cons (p : Char) (ps ks : List Char) :
    globMatchL (p :: ps) ks =
      if p = '*' then
        globMatchL ps ks ||
          (match ks with
           | [] => false
           | _ :: ks2 => globMatchL (p :: ps) ks2)
      else
        match ks with
        | [] => false
        | k :: ks2 => p == k && globMatchL ps ks2 := by
  rw [globMatchL.eq_def]

theorem globMatchL_star_any (ks : List Char) : globMatchL ['*'] ks = true := by
  induction ks with
  | nil => simp [globMatchL]
  | cons k ks ih =>
    rw [globMatchL, if_pos rfl]
    simp [globMatchL, ih]

theorem globMatchL_append_star :
    ∀ (ps ks : List Char), globMatchL ps ks = true →
      ∀ ks2 : List Char, globMatchL (ps ++ ['*']) (ks ++ ks2) = true := by
  intro ps
  induction ps with
  | nil =>
    intro ks h ks2
    rw [globMatchL] at h
    have hks : ks = [] := by
      cases ks with
      | nil => rfl
      | cons k ks => simp at h
    subst hks
    simpa using globMatchL_star_any ks2
  | cons c ps ih =>
    intro ks h ks2
    by_cases hc : c = '*'
    · subst hc
      revert h
      induction ks with
      | nil =>
        intro h
        rw [globMatchL, if_pos rfl] at h
        simp only [Bool.or_eq_true] at h
        rcases h with h | h
        · have h3 := ih [] h ks2
          rw [List.nil_append] at h3
          rw [List.cons_append, List.nil_append, globMatchL_cons, if_pos rfl]
          simp [h3]
        · simp at h
      | cons k ks ihk =>
        intro h
        rw [globMatchL, if_pos rfl] at h
        simp only [Bool.or_eq_true] at h
        rw [List.cons_append, List.cons_append, globMatchL, if_pos rfl]
        simp only [Bool.or_eq_true]
        rcases h with h | h
        · exact Or.inl (by simpa using ih (k :: ks) h ks2)
        · have h3 := ihk h
          rw [List.cons_append] at h3
          exact Or.inr h3
    · cases ks with
      | nil =>
        rw [globMatchL, if_neg hc] at h
        simp at h
      | cons k ks =>
        rw [globMatchL, if_neg hc] at h
        simp only [Bool.and_eq_true, beq_iff_eq] at h
        rw [List.cons_append, List.cons_append, globMatchL, if_neg hc]
        simp [h.1, ih ks h.2 ks2]

theorem globMatchL_self (l : List Char) : globMatchL l l = true := by
  induction l with
  | nil => simp [globMatchL]
  | cons c l ih =>
    rw [globMatchL_cons]
    by_cases hc : c = '*'
    · rw [if_pos hc]
      have h2 : globMatchL (c :: l) l = true := by
        rw [globMatchL_cons, if_pos hc]
        simp [ih]
      simp [h2]
    · rw [if_neg hc]
      simp [ih]

theorem todoListPat_matches (u s : String) :
    globMatch (todoListPat u) ("todo:" ++ u ++ ":" ++ s) = true := by
  unfold globMatch todoListPat
  have h1 : ("todo:" ++ u ++ ":*").data =
      (("todo:" ++ u ++ ":").data) ++ ['*'] := by
    simp only [String.data_append]
    simp [List.append_assoc]
  have h3 : ("todo:" ++ u ++ ":" ++ s).data =
      (("todo:" ++ u ++ ":").data) ++ s.data := by
    simp only [String.data_append]
  rw [h1, h3]
  exact globMatchL_append_star _ _ (globMatchL_self _) _

theorem todoListPat_matches_key (u i : String) :
    globMatch (todoListPat u) (todoItemKey u i) = true :=
  todoListPat_matches u i

/-! ## Claim theorems -/

/-- C1: for every claims payload, a token produced by `signAccessToken`
fails verification under `verifyRefreshToken`, and a token produced by
`signRefreshToken` fails under the access-token verifier; the two verifiers
never cross-accept, given that the two configured secrets are distinct
(they are separate required environment variables, documented as having to
differ). -/
theorem tokenSecretSeparation (e : JwtEnv) (c : Claims)
    (hsec : e.JWT_ACCESS_SECRET ≠ e.JWT_REFRESH_SECRET) :
    verifyRefreshToken e (signAccessToken e c) =
      Except.error (UnauthorizedError "Invalid refresh token") ∧
    verifyAccessToken e (signRefreshToken e c) =
      Except.error (UnauthorizedError "Unauthorized") := by
  constructor
  · simp [verifyRefreshToken, signAccessToken, signToken, verifyToken, hsec]
  · simp [verifyAccessToken, signRefreshToken, signToken, verifyToken,
      UnauthorizedError, Ne.symm hsec]

theorem tokenSecretSeparation_w :
    verifyRefreshToken ⟨"accessSecretA", "refreshSecretB"⟩
        (signAccessToken ⟨"accessSecretA", "refreshSecretB"⟩
          ⟨"u1", some "a@x.com"⟩) =
      Except.error (UnauthorizedError "Invalid refresh token") ∧
    verifyAccessToken ⟨"accessSecretA", "refreshSecretB"⟩
        (signRefreshToken ⟨"accessSecretA", "refreshSecretB"⟩
          ⟨"u1", some "a@x.com"⟩) =
      Except.error (UnauthorizedError "Unauthorized") :=
  tokenSecretSeparation ⟨"accessSecretA", "refreshSecretB"⟩
    ⟨"u1", some "a@x.com"⟩ (by decide)

/-- C3: when the identifier resolves to no user, or to a user whose stored
hash does not verify against the supplied password, `login` fails with
`UnauthorizedError` carrying exactly the message "Invalid credentials" —
the same error value in both cases. -/
theorem loginUniformInvalidCredentials (e : JwtEnv) (db : List User)
    (identifier password : String)
    (h : ∀ u, findByIdentifier db identifier = some u →
      comparePassword password u.password = false) :
    login e db identifier password =
      Except.error (UnauthorizedError "Invalid credentials") := by
  unfold login
  cases hf : findByIdentifier db identifier with
  | none => rfl
  | some u => simp [h u hf]

theorem loginUniformInvalidCredentials_w :
    login ⟨"accessSecretA", "refreshSecretB"⟩
        [⟨"id1", "alice", "a@x.com", hashPassword "password123"⟩]
        "a@x.com" "wrongpass" =
      Except.error (UnauthorizedError "Invalid credentials") := by
  apply loginUniformInvalidCredentials
  intro u hu
  have h1 : findByIdentifier
      [⟨"id1", "alice", "a@x.com", hashPassword "password123"⟩] "a@x.com" =
      some ⟨"id1", "alice", "a@x.com", hashPassword "password123"⟩ := by decide
  rw [h1] at hu
  cases hu
  decide

/-- C4: `register` checks email uniqueness first — an existing email fails
`ValidationError("Email already exists")` before the username is even
looked up; only with a fresh email is username uniqueness checked, failing
`ValidationError("Username already exists")`; hashing and user creation
appear in the trace only after both checks pass, and on either failure the
user table is unchanged. -/
theorem registerUniquenessOrder (e : JwtEnv) (db : List User)
    (newId un em pw : String) :
    ((getUserByEmail db em).isSome = true →
      register e db newId un em pw =
        ⟨[AuthEvent.lookupEmail em],
         Except.error (ValidationError "Email already exists"), db⟩) ∧
    (getUserByEmail db em = none → (getUserByUserName db un).isSome = true →
      register e db newId un em pw =
        ⟨[AuthEvent.lookupEmail em, AuthEvent.lookupUserName un],
         Except.error (ValidationError "Username already exists"), db⟩) ∧
    (getUserByEmail db em = none → getUserByUserName db un = none →
      register e db newId un em pw =
        ⟨[AuthEvent.lookupEmail em, AuthEvent.lookupUserName un,
          AuthEvent.hashed pw,
          AuthEvent.createdUser ⟨newId, un, em, hashPassword pw⟩],
         Except.ok
           ⟨signAccessToken e ⟨newId, some em⟩,
            signRefreshToken e ⟨newId, some em⟩,
            ⟨newId, un, em, hashPassword pw⟩⟩,
         db ++ [⟨newId, un, em, hashPassword pw⟩]⟩) := by
  refine ⟨?_, ?_, ?_⟩
  · intro h
    rcases Option.isSome_iff_exists.mp h with ⟨u, hu⟩
    simp [register, hu]
  · intro h1 h2
    rcases Option.isSome_iff_exists.mp h2 with ⟨u, hu⟩
    simp [register, h1, hu]
  · intro h1 h2
    simp [register, h1, h2, mintPair]

theorem registerUniquenessOrder_w :
    register ⟨"accessSecretA", "refreshSecretB"⟩
        [⟨"id1", "alice", "a@x.com", hashPassword "password123"⟩]
        "id2" "bob" "a@x.com" "hunter22" =
      ⟨[AuthEvent.lookupEmail "a@x.com"],
       Except.error (ValidationError "Email already exists"),
       [⟨"id1", "alice", "a@x.com", hashPassword "password123"⟩]⟩ :=
  (registerUniquenessOrder ⟨"accessSecretA", "refreshSecretB"⟩
    [⟨"id1", "alice", "a@x.com", hashPassword "password123"⟩]
    "id2" "bob" "a@x.com" "hunter22").1 (by decide)

/-- C5: `refreshTokens` fails `UnauthorizedError("Invalid refresh token")`
when the presented token does not verify under the refresh secret, and
fails `NotFoundError("User not found")` — a different error kind — when the
token verifies but its subject id no longer resolves to a user. -/
theorem refreshFailureKindsDistinct (e : JwtEnv) (db : List User)
    (tok : SignedToken) :
    (tok.secret ≠ e.JWT_REFRESH_SECRET →
      refreshTokens e db tok =
        Except.error (UnauthorizedError "Invalid refresh token")) ∧
    (tok.secret = e.JWT_REFRESH_SECRET →
      getUserById db tok.payload.sub = none →
        refreshTokens e db tok =
          Except.error (NotFoundError "User not found") ∧
        (NotFoundError "User not found").kind ≠
          (UnauthorizedError "Invalid refresh token").kind) := by
  constructor
  · intro h
    simp [refreshTokens, verifyRefreshToken, verifyToken, h]
  · intro h hu
    refine ⟨?_, by decide⟩
    simp [refreshTokens, verifyRefreshToken, verifyToken, h, hu]

theorem refreshFailureKindsDistinct_w :
    refreshTokens ⟨"accessSecretA", "refreshSecretB"⟩ []
        ⟨"accessSecretA", ⟨"u1", none⟩⟩ =
      Except.error (UnauthorizedError "Invalid refresh token") ∧
    refreshTokens ⟨"accessSecretA", "refreshSecretB"⟩ []
        ⟨"refreshSecretB", ⟨"ghost", none⟩⟩ =
      Except.error (NotFoundError "User not found") :=
  ⟨(refreshFailureKindsDistinct ⟨"accessSecretA", "refreshSecretB"⟩ []
      ⟨"accessSecretA", ⟨"u1", none⟩⟩).1 (by decide),
   ((refreshFailureKindsDistinct ⟨"accessSecretA", "refreshSecretB"⟩ []
      ⟨"refreshSecretB", ⟨"ghost", none⟩⟩).2 (by decide) (by decide)).1⟩

/-- C2 counterexample: a successful `register` returns the full stored user
record — its `password` field holds the stored bcrypt hash — so the
service-level result does not restrict `user` to id, username and email. -/
theorem registerResultExposesPasswordHash :
    ((register ⟨"accessSecretA", "refreshSecretB"⟩ [] "id1" "alice"
        "a@x.com" "password123").result.toOption.map
          (fun r => r.user)) =
      some ⟨"id1", "alice", "a@x.com", hashPassword "password123"⟩ ∧
    ((register ⟨"accessSecretA", "refreshSecretB"⟩ [] "id1" "alice"
        "a@x.com" "password123").result.toOption.map
          (fun r => r.user.password)) =
      some (hashPassword "password123") ∧
    hashPassword "password123" ≠ "password123" := by
  refine ⟨by decide, by decide, by decide⟩

/-- C2 (amended): the service-level result of `register`/`login`/
`issueTokens`/`refreshTokens` carries the full user record, stored password
hash included; what reaches a client is the controller's
`TokenResponseDTO = {accessToken, refreshToken}`, which is a function of
the two tokens alone — two service results with equal tokens but different
user records (in particular different password hashes) produce identical
client responses, so the hash never reaches a client. -/
theorem clientResponseOmitsPasswordHash (out1 out2 : RegisterOut)
    (r1 r2 : TokenPairResult)
    (h1 : out1.result = Except.ok r1) (h2 : out2.result = Except.ok r2)
    (hA : r1.accessToken = r2.accessToken)
    (hR : r1.refreshToken = r2.refreshToken) :
    registerResponse out1 = Except.ok ⟨r1.accessToken, r1.refreshToken⟩ ∧
    registerResponse out1 = registerResponse out2 := by
  have ht : toTokenResponse r1 = toTokenResponse r2 := by
    unfold toTokenResponse
    rw [hA, hR]
  constructor
  · unfold registerResponse
    rw [h1]
    rfl
  · unfold registerResponse
    rw [h1, h2]
    exact congrArg Except.ok ht

theorem clientResponseOmitsPasswordHash_w :
    registerResponse
        ⟨[], Except.ok ⟨⟨"sA", ⟨"u1", none⟩⟩, ⟨"sR", ⟨"u1", none⟩⟩,
          ⟨"u1", "alice", "a@x.com", "hashOne"⟩⟩, []⟩ =
      registerResponse
        ⟨[], Except.ok ⟨⟨"sA", ⟨"u1", none⟩⟩, ⟨"sR", ⟨"u1", none⟩⟩,
          ⟨"u1", "alice", "a@x.com", "hashTwo"⟩⟩, []⟩ :=
  (clientResponseOmitsPasswordHash
    ⟨[], Except.ok ⟨⟨"sA", ⟨"u1", none⟩⟩, ⟨"sR", ⟨"u1", none⟩⟩,
      ⟨"u1", "alice", "a@x.com", "hashOne"⟩⟩, []⟩
    ⟨[], Except.ok ⟨⟨"sA", ⟨"u1", none⟩⟩, ⟨"sR", ⟨"u1", none⟩⟩,
      ⟨"u1", "alice", "a@x.com", "hashTwo"⟩⟩, []⟩
    ⟨⟨"sA", ⟨"u1", none⟩⟩, ⟨"sR", ⟨"u1", none⟩⟩,
      ⟨"u1", "alice", "a@x.com", "hashOne"⟩⟩
    ⟨⟨"sA", ⟨"u1", none⟩⟩, ⟨"sR", ⟨"u1", none⟩⟩,
      ⟨"u1", "alice", "a@x.com", "hashTwo"⟩⟩
    rfl rfl rfl rfl).2

/-- C6: for a state-changing method whose url is on none of the skip
paths, the CSRF hook fails "CSRF token required" iff the cookie token or
the header token is missing (JS-falsy), fails "Invalid CSRF token" iff
both are present but differ as strings (the XOR-accumulating comparison
deciding string equality), allows iff both are present and equal; and any
request with a safe method is always allowed. -/
theorem csrfGuardBehavior (req : CsrfRequest)
    (hm : req.method ∉ safeMethods)
    (hhealth : strStartsWith req.url "/health" = false)
    (hdocs : strStartsWith req.url "/docs" = false)
    (hinternal : strStartsWith req.url "/internal" = false) :
    (csrfHook req = CsrfOutcome.deny (UnauthorizedError "CSRF token required")
      ↔ truthy req.cookieCsrfToken = none ∨ csrfHeaderToken req = none) ∧
    (csrfHook req = CsrfOutcome.deny (UnauthorizedError "Invalid CSRF token")
      ↔ ∃ c h, truthy req.cookieCsrfToken = some c ∧
          csrfHeaderToken req = some h ∧ c ≠ h) ∧
    (csrfHook req = CsrfOutcome.allow
      ↔ ∃ c, truthy req.cookieCsrfToken = some c ∧
          csrfHeaderToken req = some c) ∧
    (∀ req2 : CsrfRequest, req2.method ∈ safeMethods →
      csrfHook req2 = CsrfOutcome.allow) := by
  have hskip : (strStartsWith req.url "/health" ||
      strStartsWith req.url "/docs" ||
      strStartsWith req.url "/internal") = false := by
    rw [hhealth, hdocs, hinternal]
    rfl
  have hcore : csrfHook req =
      (match truthy req.cookieCsrfToken, csrfHeaderToken req with
       | none, _ => CsrfOutcome.deny (UnauthorizedError "CSRF token required")
       | some _, none =>
           CsrfOutcome.deny (UnauthorizedError "CSRF token required")
       | some c, some h =>
         if constantTimeEquals c h then
           CsrfOutcome.allow
         else
           CsrfOutcome.deny (UnauthorizedError "Invalid CSRF token")) := by
    unfold csrfHook
    rw [if_neg hm, if_neg (by simp [hskip])]
  have hne : UnauthorizedError "CSRF token required" ≠
      UnauthorizedError "Invalid CSRF token" := by decide
  have hne2 : UnauthorizedError "Invalid CSRF token" ≠
      UnauthorizedError "CSRF token required" := by decide
  refine ⟨?_, ?_, ?_, ?_⟩
  · rw [hcore]
    cases hc : truthy req.cookieCsrfToken with
    | none => simp
    | some c =>
      cases hh2 : csrfHeaderToken req with
      | none => simp
      | some h =>
        by_cases heq : constantTimeEquals c h = true
        · simp [heq]
        · simp only [Bool.not_eq_true] at heq
          simp [heq, hne, hne2]
  · rw [hcore]
    cases hc : truthy req.cookieCsrfToken with
    | none => simp [hne, hne2]
    | some c =>
      cases hh2 : csrfHeaderToken req with
      | none => simp [hne, hne2]
      | some h =>
        by_cases heq : constantTimeEquals c h = true
        · have hch : c = h := (constantTimeEquals_eq_true_iff c h).mp heq
          subst hch
          simp [heq]
        · have hch : ¬(c = h) := fun hch =>
            heq ((constantTimeEquals_eq_true_iff c h).mpr hch)
          constructor
          · intro _
            exact ⟨c, h, rfl, rfl, hch⟩
          · intro _
            simp [heq]
  · rw [hcore]
    cases hc : truthy req.cookieCsrfToken with
    | none => simp
    | some c =>
      cases hh2 : csrfHeaderToken req with
      | none => simp
      | some h =>
        by_cases heq : constantTimeEquals c h = true
        · have hch : c = h := (constantTimeEquals_eq_true_iff c h).mp heq
          subst hch
          simp [heq]
        · have hch : ¬(c = h) := fun hch =>
            heq ((constantTimeEquals_eq_true_iff c h).mpr hch)
          constructor
          · intro habs
            simp [heq] at habs
          · rintro ⟨c0, hc0, hh0⟩
            exact absurd
              ((Option.some.inj hc0).trans (Option.some.inj hh0).symm) hch
  · intro req2 h2
    unfold csrfHook
    rw [if_pos h2]

theorem csrfGuardBehavior_w :
    csrfHook ⟨"POST", "/api/todo", some "abc", some "abd", none, none⟩ =
      CsrfOutcome.deny (UnauthorizedError "Invalid CSRF token") ∧
    csrfHook ⟨"POST", "/api/todo", some "abc", some "abc", none, none⟩ =
      CsrfOutcome.allow ∧
    csrfHook ⟨"POST", "/api/todo", some "abc", none, none, none⟩ =
      CsrfOutcome.deny (UnauthorizedError "CSRF token required") ∧
    csrfHook ⟨"GET", "/api/todo", none, none, none, none⟩ =
      CsrfOutcome.allow :=
  ⟨(csrfGuardBehavior ⟨"POST", "/api/todo", some "abc", some "abd", none, none⟩
      (by decide) (by decide) (by decide) (by decide)).2.1.mpr
      ⟨"abc", "abd", by decide, by decide, by decide⟩,
   (csrfGuardBehavior ⟨"POST", "/api/todo", some "abc", some "abc", none, none⟩
      (by decide) (by decide) (by decide) (by decide)).2.2.1.mpr
      ⟨"abc", by decide, by decide⟩,
   (csrfGuardBehavior ⟨"POST", "/api/todo", some "abc", none, none, none⟩
      (by decide) (by decide) (by decide) (by decide)).1.mpr
      (Or.inr (by decide)),
   (csrfGuardBehavior ⟨"POST", "/x", none, none, none, none⟩
      (by decide) (by decide) (by decide) (by decide)).2.2.2
      ⟨"GET", "/api/todo", none, none, none, none⟩ (by decide)⟩

/-- C7 counterexample: on a miss whose fetcher returns `null`, `getOrSet`
does store under the key — `set` runs unconditionally, so the key
afterwards holds the serialized null rather than being absent — refuting
"getOrSet never stores anything in the cache for that key". -/
theorem getOrSetStoresNullResult :
    (cacheGetOrSet emptyCache "todo:u1:t1" (fun _ => CacheVal.null)).store
        "todo:u1:t1" = some CacheVal.null ∧
    (cacheGetOrSet emptyCache "todo:u1:t1" (fun _ => CacheVal.null)).store
        "todo:u1:t1" ≠ none := by
  refine ⟨by decide, by decide⟩

/-- C7 (amended): when `computeFn` returns `null` on a miss, `getOrSet`
does write the serialized null under the key, but a stored null parses
back to `null` and is treated as a miss, so every subsequent `getOrSet`
for the key calls `computeFn` (and hence the database) again; when
`computeFn` returns a non-null value on a miss, that value is stored and
returned, and a later hit returns the stored value without calling
`computeFn`. -/
theorem getOrSetNullBehavior (st : CacheStore) (key : String)
    (f g : Unit → CacheVal)
    (hmiss : cacheGet st key = CacheVal.null) :
    (f () = CacheVal.null →
      (cacheGetOrSet st key f).fetcherCalled = true ∧
      (cacheGetOrSet st key f).store key = some CacheVal.null ∧
      (cacheGetOrSet (cacheGetOrSet st key f).store key g).fetcherCalled =
        true ∧
      (cacheGetOrSet (cacheGetOrSet st key f).store key g).value = g ()) ∧
    (∀ t, f () = CacheVal.todo t →
      (cacheGetOrSet st key f).value = CacheVal.todo t ∧
      (cacheGetOrSet st key f).fetcherCalled = true ∧
      (cacheGetOrSet st key f).store key = some (CacheVal.todo t) ∧
      (cacheGetOrSet (cacheGetOrSet st key f).store key g).fetcherCalled =
        false ∧
      (cacheGetOrSet (cacheGetOrSet st key f).store key g).value =
        CacheVal.todo t) := by
  have h1 : cacheGetOrSet st key f = ⟨f (), cacheSet st key (f ()), true⟩ := by
    simp [cacheGetOrSet, hmiss]
  constructor
  · intro hf
    rw [h1]
    refine ⟨rfl, ?_, ?_, ?_⟩
    · simp [cacheSet, hf]
    · simp [cacheGetOrSet, cacheGet, cacheSet, hf]
    · simp [cacheGetOrSet, cacheGet, cacheSet, hf]
  · intro t hf
    rw [h1]
    refine ⟨hf, rfl, ?_, ?_, ?_⟩
    · simp [cacheSet, hf]
    · simp [cacheGetOrSet, cacheGet, cacheSet, hf]
    · simp [cacheGetOrSet, cacheGet, cacheSet, hf]

theorem getOrSetNullBehavior_w :
    (cacheGetOrSet emptyCache "todo:u1:t2" (fun _ => CacheVal.null)).fetcherCalled = true ∧
    (cacheGetOrSet
        (cacheGetOrSet emptyCache "todo:u1:t2"
          (fun _ => CacheVal.null)).store
        "todo:u1:t2" (fun _ => CacheVal.null)).fetcherCalled = true ∧
    (cacheGetOrSet emptyCache "todo:u1:t3"
        (fun _ => CacheVal.todo ⟨"t3", "Milk", none, false, 1, 1⟩)).store
        "todo:u1:t3" =
      some (CacheVal.todo ⟨"t3", "Milk", none, false, 1, 1⟩) :=
  ⟨((getOrSetNullBehavior emptyCache "todo:u1:t2" (fun _ => CacheVal.null)
      (fun _ => CacheVal.null) rfl).1 rfl).1,
   ((getOrSetNullBehavior emptyCache "todo:u1:t2" (fun _ => CacheVal.null)
      (fun _ => CacheVal.null) rfl).1 rfl).2.2.1,
   ((getOrSetNullBehavior emptyCache "todo:u1:t3"
      (fun _ => CacheVal.todo ⟨"t3", "Milk", none, false, 1, 1⟩)
      (fun _ => CacheVal.null) rfl).2
      ⟨"t3", "Milk", none, false, 1, 1⟩ rfl).2.2.1⟩

/-- C8: for every todo write, the user's item key and every key matching
the user's list pattern `todo:{U}:*` are invalidated exactly when the
database mutation succeeded — always for `create` (after the insert), for
`update` and `delete` only when a row was actually affected — and when no
row was affected the cache is returned untouched (keys outside the
invalidated set are also untouched on success). -/
theorem todoWriteInvalidationIffDbSuccess (db : TodoDb) (cache : CacheStore)
    (newId : String) (now : Nat) (cdata : CreateTodo) (udata : UpdateTodo)
    (id userId : String) :
    ((todoCreate db cache newId now cdata userId).db =
        db ++ [⟨newId, userId, cdata.title, cdata.description,
                cdata.completed.getD false, now, now⟩] ∧
      (∀ k, globMatch (todoListPat userId) k = true →
        (todoCreate db cache newId now cdata userId).cache k = none) ∧
      (todoCreate db cache newId now cdata userId).cache
          (todoItemKey userId newId) = none ∧
      (∀ k, globMatch (todoListPat userId) k = false →
        (todoCreate db cache newId now cdata userId).cache k = cache k)) ∧
    (dbFindTodo db id userId = none →
      todoUpdate db cache id udata userId now = ⟨none, db, cache⟩) ∧
    (∀ r, dbFindTodo db id userId = some r →
      (todoUpdate db cache id udata userId now).result =
        some (toTodoResponse (applyUpdate r udata now)) ∧
      (todoUpdate db cache id udata userId now).cache
          (todoItemKey userId id) = none ∧
      (∀ k, globMatch (todoListPat userId) k = true →
        (todoUpdate db cache id udata userId now).cache k = none) ∧
      (∀ k, globMatch (todoListPat userId) k = false →
        k ≠ todoItemKey userId id →
        (todoUpdate db cache id udata userId now).cache k = cache k)) ∧
    (dbFindTodo db id userId = none →
      todoDelete db cache id userId = ⟨false, db, cache⟩) ∧
    ((dbFindTodo db id userId).isSome = true →
      (todoDelete db cache id userId).result = true ∧
      (todoDelete db cache id userId).cache (todoItemKey userId id) = none ∧
      (∀ k, globMatch (todoListPat userId) k = true →
        (todoDelete db cache id userId).cache k = none) ∧
      (∀ k, globMatch (todoListPat userId) k = false →
        k ≠ todoItemKey userId id →
        (todoDelete db cache id userId).cache k = cache k)) := by
  refine ⟨⟨rfl, ?_, ?_, ?_⟩, ?_, ?_, ?_, ?_⟩
  · intro k hk
    simp [todoCreate, cacheDelPattern, hk]
  · simp [todoCreate, cacheDelPattern, todoListPat_matches_key]
  · intro k hk
    simp [todoCreate, cacheDelPattern, hk]
  · intro h
    unfold todoUpdate
    rw [h]
  · intro r hr
    unfold todoUpdate
    rw [hr]
    refine ⟨rfl, ?_, ?_, ?_⟩
    · simp [cacheDelPattern, todoListPat_matches_key]
    · intro k hk
      simp [cacheDelPattern, hk]
    · intro k hk hk2
      simp [cacheDelPattern, cacheDel, hk, hk2]
  · intro h
    unfold todoDelete
    rw [if_neg (by simp [h])]
  · intro h
    unfold todoDelete
    rw [if_pos h]
    refine ⟨rfl, ?_, ?_, ?_⟩
    · simp [cacheDelPattern, todoListPat_matches_key]
    · intro k hk
      simp [cacheDelPattern, hk]
    · intro k hk hk2
      simp [cacheDelPattern, cacheDel, hk, hk2]

theorem todoWriteInvalidation_w :
    (todoCreate []
        (fun _ => some (CacheVal.todo ⟨"old", "Old", none, false, 1, 1⟩))
        "t1" 5 ⟨"Buy milk", none, none⟩ "u1").cache
        (todoItemKey "u1" "t1") = none ∧
    todoDelete [] (fun _ => none) "tX" "u1" =
      ⟨false, [], fun _ => none⟩ ∧
    (todoUpdate [⟨"t1", "u1", "Buy milk", none, false, 5, 5⟩]
        (fun _ => some (CacheVal.todo ⟨"t1", "Buy milk", none, false, 5, 5⟩))
        "t1" ⟨some "Buy bread", none, none⟩ "u1" 9).cache
        (todoItemKey "u1" "t1") = none :=
  ⟨(todoWriteInvalidationIffDbSuccess []
      (fun _ => some (CacheVal.todo ⟨"old", "Old", none, false, 1, 1⟩))
      "t1" 5 ⟨"Buy milk", none, none⟩ ⟨none, none, none⟩
      "tX" "u1").1.2.2.1,
   (todoWriteInvalidationIffDbSuccess [] (fun _ => none) "t1" 5
      ⟨"Buy milk", none, none⟩ ⟨none, none, none⟩ "tX" "u1").2.2.2.1
      (by decide),
   ((todoWriteInvalidationIffDbSuccess
      [⟨"t1", "u1", "Buy milk", none, false, 5, 5⟩]
      (fun _ => some (CacheVal.todo ⟨"t1", "Buy milk", none, false, 5, 5⟩))
      "tNew" 5 ⟨"Buy milk", none, none⟩ ⟨some "Buy bread", none, none⟩
      "t1" "u1").2.2.1
      ⟨"t1", "u1", "Buy milk", none, false, 5, 5⟩ (by decide)).2.1⟩

theorem cacheGetOrSet_value_congr (st1 st2 : CacheStore) (key : String)
    (f : Unit → CacheVal) (h : st1 key = st2 key) :
    (cacheGetOrSet st1 key f).value = (cacheGetOrSet st2 key f).value := by
  have hg : cacheGet st1 key = cacheGet st2 key := by
    unfold cacheGet
    rw [h]
  unfold cacheGetOrSet
  rw [hg]
  by_cases hC : cacheGet st2 key = CacheVal.null
  · have hn : ¬(cacheGet st2 key ≠ CacheVal.null) := fun hcond => hcond hC
    rw [if_neg hn, if_neg hn]
  · rw [if_pos hC, if_pos hC]

/-- C9: a `getById` for an id owned by a different user returns `null`,
identically to a lookup of an id that exists nowhere — the database query
filters by both id and owner, and the cache key embeds the requesting
user's id, so the result depends only on the requester's own scoped cache
entry and never on another user's data. -/
theorem todoTenantIsolation (db : TodoDb) (cache : CacheStore)
    (X U1 U2 : String) (hU : U1 ≠ U2)
    (hOwn : ∀ r ∈ db, r.id = X → r.userId = U1)
    (hFresh : cacheGet cache (todoItemKey U2 X) = CacheVal.null) :
    (todoGetById db cache X U2).result = CacheVal.null ∧
    (∀ db2 : TodoDb, (∀ r ∈ db2, r.id ≠ X) →
      (todoGetById db2 cache X U2).result = CacheVal.null) ∧
    (∀ cache2 : CacheStore,
      cache2 (todoItemKey U2 X) = cache (todoItemKey U2 X) →
      (todoGetById db cache2 X U2).result =
        (todoGetById db cache X U2).result) := by
  have hfind : dbFindTodo db X U2 = none := by
    rw [dbFindTodo, List.find?_eq_none]
    intro r hr hb
    simp only [Bool.and_eq_true, beq_iff_eq] at hb
    exact hU ((hOwn r hr hb.1).symm.trans hb.2)
  refine ⟨?_, ?_, ?_⟩
  · simp [todoGetById, cacheGetOrSet, hFresh, hfind]
  · intro db2 h2
    have hfind2 : dbFindTodo db2 X U2 = none := by
      rw [dbFindTodo, List.find?_eq_none]
      intro r hr hb
      simp only [Bool.and_eq_true, beq_iff_eq] at hb
      exact h2 r hr hb.1
    simp [todoGetById, cacheGetOrSet, hFresh, hfind2]
  · intro cache2 hcc
    exact cacheGetOrSet_value_congr cache2 cache (todoItemKey U2 X) _ hcc

theorem todoTenantIsolation_w :
    (todoGetById [⟨"tX", "u1", "Secret", none, false, 3, 3⟩] emptyCache
        "tX" "u2").result = CacheVal.null :=
  (todoTenantIsolation [⟨"tX", "u1", "Secret", none, false, 3, 3⟩]
    emptyCache "tX" "u1" "u2" (by decide) (by decide) rfl).1

end FastifyTemplate
